import Mathlib

/-!
Verification of the Shifter web-scraping SDK (src/src/lib.rs): a shallow
embedding of the QueryBuilder and WebScrapingAPI types and their operations,
followed by theorems settling the specification claims.

Rust HashMap values are modelled as association lists (one list order per
possible iteration order); HashMap::insert is modelled by an operation with
the same lookup semantics (last write wins, other keys untouched).
-/

/-- Lookup in an association list, mirroring HashMap::get: the value of the
first entry whose key matches, if any. -/
def mapFind : List (String × String) → String → Option String
  | [], _ => none
  | p :: rest, k => if p.1 == k then some p.2 else mapFind rest k

/-- Insertion into an association list, mirroring HashMap::insert semantics:
the new binding is present and any previous binding of the same key is gone;
bindings of other keys are unaffected. -/
def mapInsert (k v : String) (m : List (String × String)) : List (String × String) :=
  (k, v) :: m.filter fun p => !(p.1 == k)

/-- Uppercase hexadecimal digit for a value below 16. -/
def hexDigitChar (n : Nat) : Char :=
  if n < 10 then Char.ofNat (48 + n) else Char.ofNat (55 + n)

/-- UTF-8 byte sequence of a character, as natural numbers below 256. -/
def utf8Bytes (c : Char) : List Nat :=
  let n := c.toNat
  if n < 128 then [n]
  else if n < 2048 then [192 + n / 64, 128 + n % 64]
  else if n < 65536 then [224 + n / 4096, 128 + (n / 64) % 64, 128 + n % 64]
  else [240 + n / 262144, 128 + (n / 4096) % 64, 128 + (n / 64) % 64, 128 + n % 64]

/-- Characters that percent-encoding passes through unchanged: ASCII
alphanumerics and the marks hyphen, underscore, period, tilde. -/
def isUrlSafeChar (c : Char) : Bool :=
  c.isAlphanum || c = '-' || c = '_' || c = '.' || c = '~'

/-- Percent-escape of one byte: a percent sign and two uppercase hex digits. -/
def percentEncodeByte (b : Nat) : List Char :=
  ['%', hexDigitChar (b / 16), hexDigitChar (b % 16)]

/-- Modelled from the spec: the percent-encoding applied to the url parameter.
The source delegates to the external urlencoding crate (urlencoding::encode),
whose code is not part of this repository: every UTF-8 byte of the value other
than ASCII alphanumerics and the marks hyphen, underscore, period and tilde is
replaced by a percent sign followed by two uppercase hexadecimal digits, and
the permitted characters pass through unchanged. -/
def encode (s : String) : String :=
  String.mk (List.flatten (s.data.map fun c =>
    if isUrlSafeChar c then [c]
    else List.flatten ((utf8Bytes c).map percentEncodeByte)))

/-- Outcome of a typed getter. The Rust getters return
Result, but reach the value by unwrapping the HashMap lookup, so the
observable outcomes are: the Ok variant carrying the stored value, the Err
variant of the declared Result type (never actually produced), and a panic
of the unwrap when the key is absent. -/
inductive GetterResult where
  | ok (v : String)
  | err (e : String)
  | panicked
deriving DecidableEq

/-- Whether a getter outcome is the Err variant of the declared Result. -/
def GetterResult.isErr : GetterResult → Bool
  | GetterResult.err _ => true
  | _ => false

/-- The query builder struct that contains the params, headers and body of a
request (struct QueryBuilder). The three Rust HashMap fields are modelled as
association lists. -/
structure QueryBuilder where
  paramsMap : List (String × String)
  headersMap : List (String × String)
  bodyMap : List (String × String)
deriving DecidableEq

/-- QueryBuilder constructor (QueryBuilder::new): all three maps empty. -/
def QueryBuilder.new : QueryBuilder :=
  { paramsMap := [], headersMap := [], bodyMap := [] }

/-- Returns a clone of the params hashmap (QueryBuilder::get_params). -/
def QueryBuilder.get_params (b : QueryBuilder) : List (String × String) :=
  b.paramsMap

/-- Sets the headers hashmap for the QueryBuilder (QueryBuilder::headers):
whole-map assignment. -/
def QueryBuilder.headers (b : QueryBuilder) (hs : List (String × String)) : QueryBuilder :=
  { b with headersMap := hs }

/-- Returns the headers hashmap for the QueryBuilder (QueryBuilder::get_headers). -/
def QueryBuilder.get_headers (b : QueryBuilder) : List (String × String) :=
  b.headersMap

/-- Sets the body hashmap for the QueryBuilder (QueryBuilder::body):
whole-map assignment. -/
def QueryBuilder.body (b : QueryBuilder) (bd : List (String × String)) : QueryBuilder :=
  { b with bodyMap := bd }

/-- Returns the body hashmap for the QueryBuilder (QueryBuilder::get_body). -/
def QueryBuilder.get_body (b : QueryBuilder) : List (String × String) :=
  b.bodyMap

/-- Sets the url parameter (QueryBuilder::url). -/
def QueryBuilder.url (b : QueryBuilder) (value : String) : QueryBuilder :=
  { b with paramsMap := mapInsert "url" value b.paramsMap }

/-- Returns the url parameter (QueryBuilder::get_url): the source unwraps the
lookup and wraps the value in Ok, so a missing key panics. -/
def QueryBuilder.get_url (b : QueryBuilder) : GetterResult :=
  match mapFind b.paramsMap "url" with
  | some v => GetterResult.ok v
  | none => GetterResult.panicked

/-- Sets the render_js parameter (QueryBuilder::render_js). -/
def QueryBuilder.render_js (b : QueryBuilder) (value : String) : QueryBuilder :=
  { b with paramsMap := mapInsert "render_js" value b.paramsMap }

/-- Returns the render_js parameter (QueryBuilder::get_render_js). -/
def QueryBuilder.get_render_js (b : QueryBuilder) : GetterResult :=
  match mapFind b.paramsMap "render_js" with
  | some v => GetterResult.ok v
  | none => GetterResult.panicked

/-- Sets the proxy_type parameter (QueryBuilder::proxy_type). -/
def QueryBuilder.proxy_type (b : QueryBuilder) (value : String) : QueryBuilder :=
  { b with paramsMap := mapInsert "proxy_type" value b.paramsMap }

/-- Returns the proxy_type parameter (QueryBuilder::get_proxy_type). -/
def QueryBuilder.get_proxy_type (b : QueryBuilder) : GetterResult :=
  match mapFind b.paramsMap "proxy_type" with
  | some v => GetterResult.ok v
  | none => GetterResult.panicked

/-- Sets the country parameter (QueryBuilder::country). -/
def QueryBuilder.country (b : QueryBuilder) (value : String) : QueryBuilder :=
  { b with paramsMap := mapInsert "country" value b.paramsMap }

/-- Returns the country parameter (QueryBuilder::get_country). -/
def QueryBuilder.get_country (b : QueryBuilder) : GetterResult :=
  match mapFind b.paramsMap "country" with
  | some v => GetterResult.ok v
  | none => GetterResult.panicked

/-- Sets the keep_headers parameter (QueryBuilder::keep_headers). -/
def QueryBuilder.keep_headers (b : QueryBuilder) (value : String) : QueryBuilder :=
  { b with paramsMap := mapInsert "keep_headers" value b.paramsMap }

/-- Returns the keep_headers parameter (QueryBuilder::get_keep_headers). -/
def QueryBuilder.get_keep_headers (b : QueryBuilder) : GetterResult :=
  match mapFind b.paramsMap "keep_headers" with
  | some v => GetterResult.ok v
  | none => GetterResult.panicked

/-- Sets the session parameter (QueryBuilder::session). -/
def QueryBuilder.session (b : QueryBuilder) (value : String) : QueryBuilder :=
  { b with paramsMap := mapInsert "session" value b.paramsMap }

/-- Returns the session parameter (QueryBuilder::get_session). -/
def QueryBuilder.get_session (b : QueryBuilder) : GetterResult :=
  match mapFind b.paramsMap "session" with
  | some v => GetterResult.ok v
  | none => GetterResult.panicked

/-- Sets the timeout parameter (QueryBuilder::timeout). -/
def QueryBuilder.timeout (b : QueryBuilder) (value : String) : QueryBuilder :=
  { b with paramsMap := mapInsert "timeout" value b.paramsMap }

/-- Returns the timeout parameter (QueryBuilder::get_timeout). -/
def QueryBuilder.get_timeout (b : QueryBuilder) : GetterResult :=
  match mapFind b.paramsMap "timeout" with
  | some v => GetterResult.ok v
  | none => GetterResult.panicked

/-- Sets the device parameter (QueryBuilder::device). -/
def QueryBuilder.device (b : QueryBuilder) (value : String) : QueryBuilder :=
  { b with paramsMap := mapInsert "device" value b.paramsMap }

/-- Returns the device parameter (QueryBuilder::get_device). -/
def QueryBuilder.get_device (b : QueryBuilder) : GetterResult :=
  match mapFind b.paramsMap "device" with
  | some v => GetterResult.ok v
  | none => GetterResult.panicked

/-- Sets the wait_until parameter (QueryBuilder::wait_until). -/
def QueryBuilder.wait_until (b : QueryBuilder) (value : String) : QueryBuilder :=
  { b with paramsMap := mapInsert "wait_until" value b.paramsMap }

/-- Returns the wait_until parameter (QueryBuilder::get_wait_until). -/
def QueryBuilder.get_wait_until (b : QueryBuilder) : GetterResult :=
  match mapFind b.paramsMap "wait_until" with
  | some v => GetterResult.ok v
  | none => GetterResult.panicked

/-- Sets the wait_for parameter (QueryBuilder::wait_for). -/
def QueryBuilder.wait_for (b : QueryBuilder) (value : String) : QueryBuilder :=
  { b with paramsMap := mapInsert "wait_for" value b.paramsMap }

/-- Returns the wait_for parameter (QueryBuilder::get_wait_for). -/
def QueryBuilder.get_wait_for (b : QueryBuilder) : GetterResult :=
  match mapFind b.paramsMap "wait_for" with
  | some v => GetterResult.ok v
  | none => GetterResult.panicked

/-- Sets the wait_for_css parameter (QueryBuilder::wait_for_css). -/
def QueryBuilder.wait_for_css (b : QueryBuilder) (value : String) : QueryBuilder :=
  { b with paramsMap := mapInsert "wait_for_css" value b.paramsMap }

/-- Returns the wait_for_css parameter (QueryBuilder::get_wait_for_css). -/
def QueryBuilder.get_wait_for_css (b : QueryBuilder) : GetterResult :=
  match mapFind b.paramsMap "wait_for_css" with
  | some v => GetterResult.ok v
  | none => GetterResult.panicked

/-- Sets the screenshot parameter (QueryBuilder::screenshot). -/
def QueryBuilder.screenshot (b : QueryBuilder) (value : String) : QueryBuilder :=
  { b with paramsMap := mapInsert "screenshot" value b.paramsMap }

/-- Returns the screenshot parameter (QueryBuilder::get_screenshot). -/
def QueryBuilder.get_screenshot (b : QueryBuilder) : GetterResult :=
  match mapFind b.paramsMap "screenshot" with
  | some v => GetterResult.ok v
  | none => GetterResult.panicked

/-- Sets the extract_rules parameter (QueryBuilder::extract_rules). -/
def QueryBuilder.extract_rules (b : QueryBuilder) (value : String) : QueryBuilder :=
  { b with paramsMap := mapInsert "extract_rules" value b.paramsMap }

/-- Returns the extract_rules parameter (QueryBuilder::get_extract_rules). -/
def QueryBuilder.get_extract_rules (b : QueryBuilder) : GetterResult :=
  match mapFind b.paramsMap "extract_rules" with
  | some v => GetterResult.ok v
  | none => GetterResult.panicked

/-- Sets the disable_stealth parameter (QueryBuilder::disable_stealth). -/
def QueryBuilder.disable_stealth (b : QueryBuilder) (value : String) : QueryBuilder :=
  { b with paramsMap := mapInsert "disable_stealth" value b.paramsMap }

/-- Returns the disable_stealth parameter (QueryBuilder::get_disable_stealth). -/
def QueryBuilder.get_disable_stealth (b : QueryBuilder) : GetterResult :=
  match mapFind b.paramsMap "disable_stealth" with
  | some v => GetterResult.ok v
  | none => GetterResult.panicked

/-- Sets the auto_parser parameter (QueryBuilder::auto_parser); the Rust name
of this method is auto_parser, spelled autoParser here. -/
def QueryBuilder.autoParser (b : QueryBuilder) (value : String) : QueryBuilder :=
  { b with paramsMap := mapInsert "auto_parser" value b.paramsMap }

/-- Returns the auto_parser parameter (QueryBuilder::get_auto_parser); the
Rust name of this method is get_auto_parser, spelled get_autoParser here. -/
def QueryBuilder.get_autoParser (b : QueryBuilder) : GetterResult :=
  match mapFind b.paramsMap "auto_parser" with
  | some v => GetterResult.ok v
  | none => GetterResult.panicked

/-- Sets the js_instructions parameter (QueryBuilder::js_instructions). -/
def QueryBuilder.js_instructions (b : QueryBuilder) (value : String) : QueryBuilder :=
  { b with paramsMap := mapInsert "js_instructions" value b.paramsMap }

/-- Returns the js_instructions parameter (QueryBuilder::get_js_instructions). -/
def QueryBuilder.get_js_instructions (b : QueryBuilder) : GetterResult :=
  match mapFind b.paramsMap "js_instructions" with
  | some v => GetterResult.ok v
  | none => GetterResult.panicked

/-- The WebScrapingAPI client that makes the requests (struct WebScrapingAPI).
The key field is the immutable api key; the reqwest Client handle is the
external transport and carries no observable state of its own, so it is not
modelled as data — the transport calls a client method performs are instead
recorded in the method's result. -/
structure WebScrapingAPI where
  key : String
deriving DecidableEq

/-- Parses parameters and encodes them correctly
(WebScrapingAPI::params_to_api_url): a fold over the parameter entries
appending one query segment per entry to an initially empty string, encoding
the value exactly when the key is url, then prefixing the endpoint and the
api key. -/
def WebScrapingAPI.params_to_api_url (self : WebScrapingAPI)
    (params : List (String × String)) : String :=
  let query_string := params.foldl
    (fun acc kv =>
      let final_value := if kv.1 = "url" then encode kv.2 else kv.2
      acc ++ ("&" ++ kv.1 ++ "=" ++ final_value)) ""
  "https://scrape.shifter.io/v1?api_key=" ++ self.key ++ query_string

/-- The query segment one loop iteration of params_to_api_url appends for one
parameter entry. -/
def querySegment (kv : String × String) : String :=
  "&" ++ kv.1 ++ "=" ++ (if kv.1 = "url" then encode kv.2 else kv.2)

/-- Modelled from the spec: acceptability of one header value under the
transport's native header representation (reqwest HeaderValue, whose code is
not part of this repository). A value is acceptable when it contains no
character forbidden on the wire: no control character below space other than
horizontal tab and no delete character. -/
def validHeaderValue (s : String) : Bool :=
  s.data.all fun c => c = '\t' || (32 ≤ c.toNat && c.toNat ≠ 127)

/-- Modelled from the spec: whether the whole header mapping converts into the
transport's native representation — every value must be acceptable. -/
def headersValid (hs : List (String × String)) : Bool :=
  hs.all fun kv => validHeaderValue kv.2

/-- Modelled from the spec: conversion of the string-to-string header mapping
into the transport's native header representation (the try_into call of the
client methods); it yields the converted mapping exactly when every value is
acceptable, and fails otherwise. -/
def tryIntoHeaderMap (hs : List (String × String)) : Option (List (String × String)) :=
  if headersValid hs then some hs else none

/-- HTTP verb of an outbound call. -/
inductive Method where
  | GET
  | POST
  | PUT
deriving DecidableEq

/-- One outbound HTTP call as the transport observes it: verb, fully built
url, converted headers, and the fields of the JSON object body if one is
attached. -/
structure HttpCall where
  method : Method
  url : String
  headers : List (String × String)
  body : Option (List (String × String))
deriving DecidableEq

/-- Observable outcome of one client method invocation: the message of the
panic that aborted it, if any, and the list of transport calls it issued, in
order. -/
structure CallResult where
  panicMsg : Option String
  calls : List HttpCall
deriving DecidableEq

/-- WebScrapingAPI get request based on the query builder (WebScrapingAPI::get):
converts the headers first — the expect call panics with Invalid headers
before anything else runs — then builds the api url and issues a single GET
with no body. -/
def WebScrapingAPI.get (self : WebScrapingAPI) (query_builder : QueryBuilder) : CallResult :=
  match tryIntoHeaderMap query_builder.get_headers with
  | none => { panicMsg := some "Invalid headers", calls := [] }
  | some hm =>
    let api_url := self.params_to_api_url query_builder.get_params
    { panicMsg := none,
      calls := [{ method := Method.GET, url := api_url, headers := hm, body := none }] }

/-- WebScrapingAPI post request based on the query builder
(WebScrapingAPI::post): like get but a single POST carrying the builder body
mapping as a JSON object. -/
def WebScrapingAPI.post (self : WebScrapingAPI) (query_builder : QueryBuilder) : CallResult :=
  match tryIntoHeaderMap query_builder.get_headers with
  | none => { panicMsg := some "Invalid headers", calls := [] }
  | some hm =>
    let api_url := self.params_to_api_url query_builder.get_params
    { panicMsg := none,
      calls := [{ method := Method.POST, url := api_url, headers := hm,
                  body := some query_builder.get_body }] }

/-- WebScrapingAPI put request based on the query builder
(WebScrapingAPI::put): like post but HTTP PUT. -/
def WebScrapingAPI.put (self : WebScrapingAPI) (query_builder : QueryBuilder) : CallResult :=
  match tryIntoHeaderMap query_builder.get_headers with
  | none => { panicMsg := some "Invalid headers", calls := [] }
  | some hm =>
    let api_url := self.params_to_api_url query_builder.get_params
    { panicMsg := none,
      calls := [{ method := Method.PUT, url := api_url, headers := hm,
                  body := some query_builder.get_body }] }

/-- WebScrapingAPI get request based on HashMap raw parameters
(WebScrapingAPI::raw_get). -/
def WebScrapingAPI.raw_get (self : WebScrapingAPI) (params : List (String × String))
    (hs : List (String × String)) : CallResult :=
  match tryIntoHeaderMap hs with
  | none => { panicMsg := some "Invalid headers", calls := [] }
  | some hm =>
    let api_url := self.params_to_api_url params
    { panicMsg := none,
      calls := [{ method := Method.GET, url := api_url, headers := hm, body := none }] }

/-- WebScrapingAPI post request based on HashMap raw parameters
(WebScrapingAPI::raw_post). -/
def WebScrapingAPI.raw_post (self : WebScrapingAPI) (params : List (String × String))
    (hs : List (String × String)) (bd : List (String × String)) : CallResult :=
  match tryIntoHeaderMap hs with
  | none => { panicMsg := some "Invalid headers", calls := [] }
  | some hm =>
    let api_url := self.params_to_api_url params
    { panicMsg := none,
      calls := [{ method := Method.POST, url := api_url, headers := hm, body := some bd }] }

/-- WebScrapingAPI put request based on HashMap raw parameters
(WebScrapingAPI::raw_put). -/
def WebScrapingAPI.raw_put (self : WebScrapingAPI) (params : List (String × String))
    (hs : List (String × String)) (bd : List (String × String)) : CallResult :=
  match tryIntoHeaderMap hs with
  | none => { panicMsg := some "Invalid headers", calls := [] }
  | some hm =>
    let api_url := self.params_to_api_url params
    { panicMsg := none,
      calls := [{ method := Method.PUT, url := api_url, headers := hm, body := some bd }] }

/-- A getter behaves as the looked-up parameter wrapped in Ok, panicking when
the key is absent — the common shape of all sixteen typed getters. -/
def GetterSpec (g : QueryBuilder → GetterResult) (key : String) : Prop :=
  ∀ b : QueryBuilder, g b =
    match mapFind b.paramsMap key with
    | some v => GetterResult.ok v
    | none => GetterResult.panicked

/-- A setter inserts its value under its fixed key, leaving the other two
maps alone — the common shape of all sixteen typed setters. -/
def SetterSpec (s : QueryBuilder → String → QueryBuilder) (key : String) : Prop :=
  ∀ (b : QueryBuilder) (v : String),
    s b v = { b with paramsMap := mapInsert key v b.paramsMap }

/-- Frame property of a typed setter: headers and body are untouched and every
parameter other than its own key keeps its value. -/
def SetterFrame (s : QueryBuilder → String → QueryBuilder) (key : String) : Prop :=
  ∀ (b : QueryBuilder) (v : String),
    (s b v).headersMap = b.headersMap ∧
    (s b v).bodyMap = b.bodyMap ∧
    ∀ k, k ≠ key → mapFind (s b v).paramsMap k = mapFind b.paramsMap k

/-- A getter never yields the Err variant, and on any state storing a value
under its key it yields Ok of exactly that value. -/
def GetterTotalOk (g : QueryBuilder → GetterResult) (key : String) : Prop :=
  ∀ b : QueryBuilder,
    (∀ e, g b ≠ GetterResult.err e) ∧
    (∀ v, mapFind b.paramsMap key = some v → g b = GetterResult.ok v)

/-- One string occurs inside another, surrounded by some prefix and suffix. -/
def appearsIn (needle hay : String) : Prop :=
  ∃ pre post, hay = pre ++ needle ++ post

/-- Concrete client fixture used by witnesses. -/
def wsaK : WebScrapingAPI := { key := "K" }

/-- Concrete header mapping whose value holds a control character. -/
def badHeaders : List (String × String) := [("X-Test", "a\nb")]

/-- Concrete builder carrying the invalid header mapping. -/
def qbBad : QueryBuilder :=
  { paramsMap := [], headersMap := badHeaders, bodyMap := [] }

/-- Concrete builder with one parameter, one valid header and one body field. -/
def qbGood : QueryBuilder :=
  { paramsMap := [("render_js", "1")],
    headersMap := [("Wsa-test", "abcd")],
    bodyMap := [("foo", "bar")] }


/-- Two strings with the same character data are equal. -/
theorem string_data_ext {a b : String} (h : a.data = b.data) : a = b := by
  cases a; cases b; exact congrArg String.mk h

/-- String concatenation is associative. -/
theorem string_append_assoc (a b c : String) : a ++ b ++ c = a ++ (b ++ c) := by
  apply string_data_ext
  simp [String.data_append, List.append_assoc]

/-- Joining a nonempty list of strings peels off the head. -/
theorem string_join_cons (a : String) (l : List String) :
    String.join (a :: l) = a ++ String.join l := by
  apply string_data_ext
  simp [String.data_join, String.data_append]

/-- The query-string fold of params_to_api_url appends the join of the
individual segments to its initial accumulator. -/
theorem foldl_querySegment (ps : List (String × String)) :
    ∀ s : String,
      ps.foldl (fun acc kv => acc ++ querySegment kv) s =
        s ++ String.join (ps.map querySegment) := by
  induction ps with
  | nil => intro s; exact (String.append_empty s).symm
  | cons kv ps ih =>
    intro s
    simp only [List.foldl_cons, List.map_cons]
    rw [ih (s ++ querySegment kv), string_join_cons, string_append_assoc]

/-- Closed form of params_to_api_url: the endpoint prefix with the api key,
followed by the join of one query segment per parameter entry. -/
theorem params_to_api_url_eq (self : WebScrapingAPI) (ps : List (String × String)) :
    self.params_to_api_url ps =
      "https://scrape.shifter.io/v1?api_key=" ++ self.key ++
        String.join (ps.map querySegment) := by
  show "https://scrape.shifter.io/v1?api_key=" ++ self.key ++
      ps.foldl (fun acc kv => acc ++ querySegment kv) "" = _
  rw [foldl_querySegment ps "", String.empty_append]

/-- Looking up the key just inserted yields the inserted value. -/
theorem mapFind_insert_self (key v : String) (m : List (String × String)) :
    mapFind (mapInsert key v m) key = some v := by
  simp [mapInsert, mapFind]

/-- Dropping the bindings of one key does not change the lookup of another. -/
theorem mapFind_filter_ne (key k : String) (h : k ≠ key)
    (m : List (String × String)) :
    mapFind (m.filter fun p => !(p.1 == key)) k = mapFind m k := by
  induction m with
  | nil => rfl
  | cons p rest ih =>
    have h3 : ¬ key = k := fun he => h he.symm
    by_cases hk : p.1 = key
    · simp [List.filter_cons, hk, mapFind, ih, h3]
    · by_cases h2 : p.1 = k
      · simp [List.filter_cons, hk, mapFind, h2, h]
      · simp [List.filter_cons, hk, mapFind, h2, ih]

/-- Inserting under one key does not change the lookup of another. -/
theorem mapFind_insert_ne (key v k : String) (m : List (String × String))
    (h : k ≠ key) :
    mapFind (mapInsert key v m) k = mapFind m k := by
  have h1 : (key == k) = false := beq_eq_false_iff_ne.mpr fun he => h he.symm
  simp [mapInsert, mapFind, h1, mapFind_filter_ne key k h m]

/-- A setter of the common shape followed by a getter of the common shape on
the same key returns Ok of the value just set. -/
theorem getter_ok_of_set (s : QueryBuilder → String → QueryBuilder)
    (g : QueryBuilder → GetterResult) (key : String)
    (hs : SetterSpec s key) (hg : GetterSpec g key)
    (b : QueryBuilder) (v : String) : g (s b v) = GetterResult.ok v := by
  rw [hg, hs]
  simp [mapFind_insert_self]

/-- A getter of the common shape panics when its key is absent. -/
theorem getter_panic_of_missing (g : QueryBuilder → GetterResult) (key : String)
    (hg : GetterSpec g key) (b : QueryBuilder)
    (h : mapFind b.paramsMap key = none) : g b = GetterResult.panicked := by
  rw [hg, h]

/-- A getter of the common shape never returns the Err variant, and returns
Ok of the stored value whenever its key is bound. -/
theorem getterTotalOk_of (g : QueryBuilder → GetterResult) (key : String)
    (hg : GetterSpec g key) : GetterTotalOk g key := by
  intro b
  constructor
  · intro e hcontra
    rw [hg] at hcontra
    cases hfind : mapFind b.paramsMap key <;> rw [hfind] at hcontra <;> simp at hcontra
  · intro v hv
    rw [hg, hv]

/-- A setter of the common shape touches nothing but its own parameter. -/
theorem setterFrame_of (s : QueryBuilder → String → QueryBuilder) (key : String)
    (hs : SetterSpec s key) : SetterFrame s key := by
  intro b v
  refine ⟨by rw [hs], by rw [hs], fun k hk => ?_⟩
  rw [hs]
  exact mapFind_insert_ne key v k b.paramsMap hk

/-- Occurrence inside the right part of a concatenation. -/
theorem appearsIn_append_left (n g h : String) (ha : appearsIn n h) :
    appearsIn n (g ++ h) := by
  obtain ⟨pre, post, rfl⟩ := ha
  refine ⟨g ++ pre, post, ?_⟩
  apply string_data_ext
  simp [String.data_append, List.append_assoc]

/-- The query segment of every parameter entry occurs inside the joined
query string. -/
theorem appearsIn_join_of_mem (ps : List (String × String)) (p : String × String)
    (hp : p ∈ ps) :
    appearsIn (querySegment p) (String.join (ps.map querySegment)) := by
  obtain ⟨s, t, rfl⟩ := List.append_of_mem hp
  refine ⟨String.join (s.map querySegment), String.join (t.map querySegment), ?_⟩
  apply string_data_ext
  simp [String.data_join, String.data_append, List.map_append, List.append_assoc]

/-- C1 counterexample: on a fresh QueryBuilder the typed url getter does not
hand a missing-key error back to the caller — the observable outcome of the
unwrap on the absent key is a panic, not the Err variant of the declared
Result type. -/
theorem c1_counterexample_getter_panics_not_err :
    QueryBuilder.get_url QueryBuilder.new = GetterResult.panicked ∧
      GetterResult.isErr (QueryBuilder.get_url QueryBuilder.new) = false := by
  decide

/-- C1 (amended): for every enumerated parameter name, invoking the typed
getter on a QueryBuilder whose parameter map does not bind that name fails
immediately and locally with no network effect — by panicking on the unwrap
of the missing key, not by returning an error value through the Result
channel. -/
theorem c1_unset_getter_panics (b : QueryBuilder) :
    (mapFind b.paramsMap "url" = none → b.get_url = GetterResult.panicked) ∧
    (mapFind b.paramsMap "render_js" = none → b.get_render_js = GetterResult.panicked) ∧
    (mapFind b.paramsMap "proxy_type" = none → b.get_proxy_type = GetterResult.panicked) ∧
    (mapFind b.paramsMap "country" = none → b.get_country = GetterResult.panicked) ∧
    (mapFind b.paramsMap "keep_headers" = none → b.get_keep_headers = GetterResult.panicked) ∧
    (mapFind b.paramsMap "session" = none → b.get_session = GetterResult.panicked) ∧
    (mapFind b.paramsMap "timeout" = none → b.get_timeout = GetterResult.panicked) ∧
    (mapFind b.paramsMap "device" = none → b.get_device = GetterResult.panicked) ∧
    (mapFind b.paramsMap "wait_until" = none → b.get_wait_until = GetterResult.panicked) ∧
    (mapFind b.paramsMap "wait_for" = none → b.get_wait_for = GetterResult.panicked) ∧
    (mapFind b.paramsMap "wait_for_css" = none → b.get_wait_for_css = GetterResult.panicked) ∧
    (mapFind b.paramsMap "screenshot" = none → b.get_screenshot = GetterResult.panicked) ∧
    (mapFind b.paramsMap "extract_rules" = none → b.get_extract_rules = GetterResult.panicked) ∧
    (mapFind b.paramsMap "disable_stealth" = none → b.get_disable_stealth = GetterResult.panicked) ∧
    (mapFind b.paramsMap "auto_parser" = none → b.get_autoParser = GetterResult.panicked) ∧
    (mapFind b.paramsMap "js_instructions" = none → b.get_js_instructions = GetterResult.panicked) :=
  ⟨getter_panic_of_missing QueryBuilder.get_url "url" (fun _ => rfl) b,
   getter_panic_of_missing QueryBuilder.get_render_js "render_js" (fun _ => rfl) b,
   getter_panic_of_missing QueryBuilder.get_proxy_type "proxy_type" (fun _ => rfl) b,
   getter_panic_of_missing QueryBuilder.get_country "country" (fun _ => rfl) b,
   getter_panic_of_missing QueryBuilder.get_keep_headers "keep_headers" (fun _ => rfl) b,
   getter_panic_of_missing QueryBuilder.get_session "session" (fun _ => rfl) b,
   getter_panic_of_missing QueryBuilder.get_timeout "timeout" (fun _ => rfl) b,
   getter_panic_of_missing QueryBuilder.get_device "device" (fun _ => rfl) b,
   getter_panic_of_missing QueryBuilder.get_wait_until "wait_until" (fun _ => rfl) b,
   getter_panic_of_missing QueryBuilder.get_wait_for "wait_for" (fun _ => rfl) b,
   getter_panic_of_missing QueryBuilder.get_wait_for_css "wait_for_css" (fun _ => rfl) b,
   getter_panic_of_missing QueryBuilder.get_screenshot "screenshot" (fun _ => rfl) b,
   getter_panic_of_missing QueryBuilder.get_extract_rules "extract_rules" (fun _ => rfl) b,
   getter_panic_of_missing QueryBuilder.get_disable_stealth "disable_stealth" (fun _ => rfl) b,
   getter_panic_of_missing QueryBuilder.get_autoParser "auto_parser" (fun _ => rfl) b,
   getter_panic_of_missing QueryBuilder.get_js_instructions "js_instructions" (fun _ => rfl) b⟩

/-- C1 witness: on the fresh builder every hypothesis of the amended claim is
dischargeable and every typed getter panics. -/
theorem c1_unset_getter_panics_witness :
    QueryBuilder.new.get_url = GetterResult.panicked ∧
    QueryBuilder.new.get_render_js = GetterResult.panicked ∧
    QueryBuilder.new.get_proxy_type = GetterResult.panicked ∧
    QueryBuilder.new.get_country = GetterResult.panicked ∧
    QueryBuilder.new.get_keep_headers = GetterResult.panicked ∧
    QueryBuilder.new.get_session = GetterResult.panicked ∧
    QueryBuilder.new.get_timeout = GetterResult.panicked ∧
    QueryBuilder.new.get_device = GetterResult.panicked ∧
    QueryBuilder.new.get_wait_until = GetterResult.panicked ∧
    QueryBuilder.new.get_wait_for = GetterResult.panicked ∧
    QueryBuilder.new.get_wait_for_css = GetterResult.panicked ∧
    QueryBuilder.new.get_screenshot = GetterResult.panicked ∧
    QueryBuilder.new.get_extract_rules = GetterResult.panicked ∧
    QueryBuilder.new.get_disable_stealth = GetterResult.panicked ∧
    QueryBuilder.new.get_autoParser = GetterResult.panicked ∧
    QueryBuilder.new.get_js_instructions = GetterResult.panicked :=
  ⟨(c1_unset_getter_panics QueryBuilder.new).1 rfl,
   (c1_unset_getter_panics QueryBuilder.new).2.1 rfl,
   (c1_unset_getter_panics QueryBuilder.new).2.2.1 rfl,
   (c1_unset_getter_panics QueryBuilder.new).2.2.2.1 rfl,
   (c1_unset_getter_panics QueryBuilder.new).2.2.2.2.1 rfl,
   (c1_unset_getter_panics QueryBuilder.new).2.2.2.2.2.1 rfl,
   (c1_unset_getter_panics QueryBuilder.new).2.2.2.2.2.2.1 rfl,
   (c1_unset_getter_panics QueryBuilder.new).2.2.2.2.2.2.2.1 rfl,
   (c1_unset_getter_panics QueryBuilder.new).2.2.2.2.2.2.2.2.1 rfl,
   (c1_unset_getter_panics QueryBuilder.new).2.2.2.2.2.2.2.2.2.1 rfl,
   (c1_unset_getter_panics QueryBuilder.new).2.2.2.2.2.2.2.2.2.2.1 rfl,
   (c1_unset_getter_panics QueryBuilder.new).2.2.2.2.2.2.2.2.2.2.2.1 rfl,
   (c1_unset_getter_panics QueryBuilder.new).2.2.2.2.2.2.2.2.2.2.2.2.1 rfl,
   (c1_unset_getter_panics QueryBuilder.new).2.2.2.2.2.2.2.2.2.2.2.2.2.1 rfl,
   (c1_unset_getter_panics QueryBuilder.new).2.2.2.2.2.2.2.2.2.2.2.2.2.2.1 rfl,
   (c1_unset_getter_panics QueryBuilder.new).2.2.2.2.2.2.2.2.2.2.2.2.2.2.2 rfl⟩

/-- C2: with a header mapping containing a value not permitted on the wire,
every client method — get, post, put, raw_get, raw_post and raw_put — aborts
with the Invalid headers failure and the transport observes no call. -/
theorem c2_invalid_headers_abort (self : WebScrapingAPI) (qb : QueryBuilder)
    (params hs bd : List (String × String)) :
    (headersValid qb.get_headers = false →
      self.get qb = { panicMsg := some "Invalid headers", calls := [] } ∧
      self.post qb = { panicMsg := some "Invalid headers", calls := [] } ∧
      self.put qb = { panicMsg := some "Invalid headers", calls := [] }) ∧
    (headersValid hs = false →
      self.raw_get params hs = { panicMsg := some "Invalid headers", calls := [] } ∧
      self.raw_post params hs bd = { panicMsg := some "Invalid headers", calls := [] } ∧
      self.raw_put params hs bd = { panicMsg := some "Invalid headers", calls := [] }) := by
  constructor
  · intro h
    refine ⟨?_, ?_, ?_⟩ <;>
      simp [WebScrapingAPI.get, WebScrapingAPI.post, WebScrapingAPI.put,
        tryIntoHeaderMap, h]
  · intro h
    refine ⟨?_, ?_, ?_⟩ <;>
      simp [WebScrapingAPI.raw_get, WebScrapingAPI.raw_post, WebScrapingAPI.raw_put,
        tryIntoHeaderMap, h]

/-- C2 witness: a header value holding a line feed makes both the builder call
and the raw call abort with no transport call. -/
theorem c2_invalid_headers_abort_witness :
    wsaK.get qbBad = { panicMsg := some "Invalid headers", calls := [] } ∧
    wsaK.raw_get [] badHeaders = { panicMsg := some "Invalid headers", calls := [] } :=
  ⟨((c2_invalid_headers_abort wsaK qbBad [] badHeaders []).1 (by decide)).1,
   ((c2_invalid_headers_abort wsaK qbBad [] badHeaders []).2 (by decide)).1⟩

/-- C3: every generated URL is the endpoint prefix carrying the api key
followed by the join of exactly one query segment per parameter entry and
nothing else, and for the empty mapping it is exactly the prefix. -/
theorem c3_api_url_shape (self : WebScrapingAPI) (ps : List (String × String)) :
    self.params_to_api_url ps =
      "https://scrape.shifter.io/v1?api_key=" ++ self.key ++
        String.join (ps.map querySegment) ∧
    (ps.map querySegment).length = ps.length ∧
    self.params_to_api_url [] = "https://scrape.shifter.io/v1?api_key=" ++ self.key := by
  refine ⟨params_to_api_url_eq self ps, by simp, ?_⟩
  rw [params_to_api_url_eq]
  exact String.append_empty _

/-- C4: exactly the url parameter is percent-encoded — the URL generated from
a mapping binding url carries the encoded value, the segment of any other
entry appears with its value verbatim even when it contains a space, and the
spec example evaluates to a URL containing b%20c once while d e stays
unencoded. -/
theorem c4_only_url_value_encoded :
    (∀ (self : WebScrapingAPI) (ps : List (String × String)) (v : String),
      ("url", v) ∈ ps →
        appearsIn ("&url=" ++ encode v) (self.params_to_api_url ps)) ∧
    (∀ (self : WebScrapingAPI) (ps : List (String × String)) (k v : String),
      (k, v) ∈ ps → k ≠ "url" →
        appearsIn ("&" ++ k ++ "=" ++ v) (self.params_to_api_url ps)) ∧
    WebScrapingAPI.params_to_api_url { key := "K" }
        [("url", "http://a.com/b c"), ("w", "d e")] =
      "https://scrape.shifter.io/v1?api_key=K&url=http%3A%2F%2Fa.com%2Fb%20c&w=d e" := by
  refine ⟨?_, ?_, by decide⟩
  · intro self ps v hp
    have h1 := appearsIn_join_of_mem ps ("url", v) hp
    have h2 : querySegment ("url", v) = "&url=" ++ encode v := by
      show "&" ++ "url" ++ "=" ++ (if ("url" : String) = "url" then encode v else v) =
        "&url=" ++ encode v
      rw [if_pos rfl, show ("&" ++ "url" ++ "=" : String) = "&url=" by decide]
    rw [h2] at h1
    rw [params_to_api_url_eq]
    exact appearsIn_append_left _ _ _ h1
  · intro self ps k v hp hk
    have h1 := appearsIn_join_of_mem ps (k, v) hp
    have h2 : querySegment (k, v) = "&" ++ k ++ "=" ++ v := by
      show "&" ++ k ++ "=" ++ (if k = "url" then encode v else v) = "&" ++ k ++ "=" ++ v
      rw [if_neg hk]
    rw [h2] at h1
    rw [params_to_api_url_eq]
    exact appearsIn_append_left _ _ _ h1

/-- C4 witness: on the spec example mapping the encoded url segment and the
verbatim other segment both occur in the generated URL. -/
theorem c4_only_url_value_encoded_witness :
    appearsIn ("&url=" ++ encode "http://a.com/b c")
      (WebScrapingAPI.params_to_api_url { key := "K" }
        [("url", "http://a.com/b c"), ("w", "d e")]) ∧
    appearsIn ("&" ++ "w" ++ "=" ++ "d e")
      (WebScrapingAPI.params_to_api_url { key := "K" }
        [("url", "http://a.com/b c"), ("w", "d e")]) :=
  ⟨c4_only_url_value_encoded.1 { key := "K" }
      [("url", "http://a.com/b c"), ("w", "d e")] "http://a.com/b c" (by decide),
   c4_only_url_value_encoded.2.1 { key := "K" }
      [("url", "http://a.com/b c"), ("w", "d e")] "w" "d e" (by decide) (by decide)⟩

/-- C5: for every enumerated parameter name and every value, calling the
setter with that value and then the matching getter returns Ok of exactly
that value, on any prior builder state — the setter stores the value under
its fixed key, overwriting any prior binding, and the getter retrieves it. -/
theorem c5_setter_getter_roundtrip (b : QueryBuilder) (v : String) :
    (b.url v).get_url = GetterResult.ok v ∧
    (b.render_js v).get_render_js = GetterResult.ok v ∧
    (b.proxy_type v).get_proxy_type = GetterResult.ok v ∧
    (b.country v).get_country = GetterResult.ok v ∧
    (b.keep_headers v).get_keep_headers = GetterResult.ok v ∧
    (b.session v).get_session = GetterResult.ok v ∧
    (b.timeout v).get_timeout = GetterResult.ok v ∧
    (b.device v).get_device = GetterResult.ok v ∧
    (b.wait_until v).get_wait_until = GetterResult.ok v ∧
    (b.wait_for v).get_wait_for = GetterResult.ok v ∧
    (b.wait_for_css v).get_wait_for_css = GetterResult.ok v ∧
    (b.screenshot v).get_screenshot = GetterResult.ok v ∧
    (b.extract_rules v).get_extract_rules = GetterResult.ok v ∧
    (b.disable_stealth v).get_disable_stealth = GetterResult.ok v ∧
    (b.autoParser v).get_autoParser = GetterResult.ok v ∧
    (b.js_instructions v).get_js_instructions = GetterResult.ok v :=
  ⟨getter_ok_of_set QueryBuilder.url QueryBuilder.get_url "url"
      (fun _ _ => rfl) (fun _ => rfl) b v,
   getter_ok_of_set QueryBuilder.render_js QueryBuilder.get_render_js "render_js"
      (fun _ _ => rfl) (fun _ => rfl) b v,
   getter_ok_of_set QueryBuilder.proxy_type QueryBuilder.get_proxy_type "proxy_type"
      (fun _ _ => rfl) (fun _ => rfl) b v,
   getter_ok_of_set QueryBuilder.country QueryBuilder.get_country "country"
      (fun _ _ => rfl) (fun _ => rfl) b v,
   getter_ok_of_set QueryBuilder.keep_headers QueryBuilder.get_keep_headers "keep_headers"
      (fun _ _ => rfl) (fun _ => rfl) b v,
   getter_ok_of_set QueryBuilder.session QueryBuilder.get_session "session"
      (fun _ _ => rfl) (fun _ => rfl) b v,
   getter_ok_of_set QueryBuilder.timeout QueryBuilder.get_timeout "timeout"
      (fun _ _ => rfl) (fun _ => rfl) b v,
   getter_ok_of_set QueryBuilder.device QueryBuilder.get_device "device"
      (fun _ _ => rfl) (fun _ => rfl) b v,
   getter_ok_of_set QueryBuilder.wait_until QueryBuilder.get_wait_until "wait_until"
      (fun _ _ => rfl) (fun _ => rfl) b v,
   getter_ok_of_set QueryBuilder.wait_for QueryBuilder.get_wait_for "wait_for"
      (fun _ _ => rfl) (fun _ => rfl) b v,
   getter_ok_of_set QueryBuilder.wait_for_css QueryBuilder.get_wait_for_css "wait_for_css"
      (fun _ _ => rfl) (fun _ => rfl) b v,
   getter_ok_of_set QueryBuilder.screenshot QueryBuilder.get_screenshot "screenshot"
      (fun _ _ => rfl) (fun _ => rfl) b v,
   getter_ok_of_set QueryBuilder.extract_rules QueryBuilder.get_extract_rules "extract_rules"
      (fun _ _ => rfl) (fun _ => rfl) b v,
   getter_ok_of_set QueryBuilder.disable_stealth QueryBuilder.get_disable_stealth "disable_stealth"
      (fun _ _ => rfl) (fun _ => rfl) b v,
   getter_ok_of_set QueryBuilder.autoParser QueryBuilder.get_autoParser "auto_parser"
      (fun _ _ => rfl) (fun _ => rfl) b v,
   getter_ok_of_set QueryBuilder.js_instructions QueryBuilder.get_js_instructions "js_instructions"
      (fun _ _ => rfl) (fun _ => rfl) b v⟩

/-- C6: the headers and body setters replace the entire prior mapping rather
than merging — after setting twice, exactly the second mapping remains. -/
theorem c6_headers_body_replace (b : QueryBuilder)
    (m1 m2 : List (String × String)) :
    ((b.headers m1).headers m2).get_headers = m2 ∧
    ((b.body m1).body m2).get_body = m2 :=
  ⟨rfl, rfl⟩

/-- C7: with convertible headers, each invocation of get, post or put issues
exactly one transport call with the matching verb, the constructed URL and
the builder headers; the GET call carries no body while the POST and PUT
calls carry the builder body mapping as their JSON object; no panic and no
second round trip occurs. -/
theorem c7_one_call_per_invocation (self : WebScrapingAPI) (qb : QueryBuilder)
    (h : headersValid qb.get_headers = true) :
    self.get qb =
      { panicMsg := none,
        calls := [{ method := Method.GET,
                    url := self.params_to_api_url qb.get_params,
                    headers := qb.get_headers, body := none }] } ∧
    self.post qb =
      { panicMsg := none,
        calls := [{ method := Method.POST,
                    url := self.params_to_api_url qb.get_params,
                    headers := qb.get_headers, body := some qb.get_body }] } ∧
    self.put qb =
      { panicMsg := none,
        calls := [{ method := Method.PUT,
                    url := self.params_to_api_url qb.get_params,
                    headers := qb.get_headers, body := some qb.get_body }] } := by
  refine ⟨?_, ?_, ?_⟩ <;>
    simp [WebScrapingAPI.get, WebScrapingAPI.post, WebScrapingAPI.put,
      tryIntoHeaderMap, h]

/-- C7 witness: the concrete builder converts its headers and its get call
records exactly one GET. -/
theorem c7_one_call_per_invocation_witness :
    wsaK.get qbGood =
      { panicMsg := none,
        calls := [{ method := Method.GET,
                    url := wsaK.params_to_api_url qbGood.get_params,
                    headers := qbGood.get_headers, body := none }] } :=
  (c7_one_call_per_invocation wsaK qbGood (by decide)).1

/-- C8: the three builder mappings are independent — each typed setter leaves
the headers mapping, the body mapping and every other parameter unchanged,
the headers setter leaves params and body unchanged, and the body setter
leaves params and headers unchanged. -/
theorem c8_mappings_independent :
    SetterFrame QueryBuilder.url "url" ∧
    SetterFrame QueryBuilder.render_js "render_js" ∧
    SetterFrame QueryBuilder.proxy_type "proxy_type" ∧
    SetterFrame QueryBuilder.country "country" ∧
    SetterFrame QueryBuilder.keep_headers "keep_headers" ∧
    SetterFrame QueryBuilder.session "session" ∧
    SetterFrame QueryBuilder.timeout "timeout" ∧
    SetterFrame QueryBuilder.device "device" ∧
    SetterFrame QueryBuilder.wait_until "wait_until" ∧
    SetterFrame QueryBuilder.wait_for "wait_for" ∧
    SetterFrame QueryBuilder.wait_for_css "wait_for_css" ∧
    SetterFrame QueryBuilder.screenshot "screenshot" ∧
    SetterFrame QueryBuilder.extract_rules "extract_rules" ∧
    SetterFrame QueryBuilder.disable_stealth "disable_stealth" ∧
    SetterFrame QueryBuilder.autoParser "auto_parser" ∧
    SetterFrame QueryBuilder.js_instructions "js_instructions" ∧
    (∀ (b : QueryBuilder) (m : List (String × String)),
      (b.headers m).paramsMap = b.paramsMap ∧ (b.headers m).bodyMap = b.bodyMap) ∧
    (∀ (b : QueryBuilder) (m : List (String × String)),
      (b.body m).paramsMap = b.paramsMap ∧ (b.body m).headersMap = b.headersMap) :=
  ⟨setterFrame_of QueryBuilder.url "url" (fun _ _ => rfl),
   setterFrame_of QueryBuilder.render_js "render_js" (fun _ _ => rfl),
   setterFrame_of QueryBuilder.proxy_type "proxy_type" (fun _ _ => rfl),
   setterFrame_of QueryBuilder.country "country" (fun _ _ => rfl),
   setterFrame_of QueryBuilder.keep_headers "keep_headers" (fun _ _ => rfl),
   setterFrame_of QueryBuilder.session "session" (fun _ _ => rfl),
   setterFrame_of QueryBuilder.timeout "timeout" (fun _ _ => rfl),
   setterFrame_of QueryBuilder.device "device" (fun _ _ => rfl),
   setterFrame_of QueryBuilder.wait_until "wait_until" (fun _ _ => rfl),
   setterFrame_of QueryBuilder.wait_for "wait_for" (fun _ _ => rfl),
   setterFrame_of QueryBuilder.wait_for_css "wait_for_css" (fun _ _ => rfl),
   setterFrame_of QueryBuilder.screenshot "screenshot" (fun _ _ => rfl),
   setterFrame_of QueryBuilder.extract_rules "extract_rules" (fun _ _ => rfl),
   setterFrame_of QueryBuilder.disable_stealth "disable_stealth" (fun _ _ => rfl),
   setterFrame_of QueryBuilder.autoParser "auto_parser" (fun _ _ => rfl),
   setterFrame_of QueryBuilder.js_instructions "js_instructions" (fun _ _ => rfl),
   fun _ _ => ⟨rfl, rfl⟩,
   fun _ _ => ⟨rfl, rfl⟩⟩

/-- C8 witness: setting url on the fresh builder leaves the country parameter,
the headers mapping and the body mapping untouched. -/
theorem c8_mappings_independent_witness :
    mapFind (QueryBuilder.url QueryBuilder.new "x").paramsMap "country" =
      mapFind QueryBuilder.new.paramsMap "country" ∧
    (QueryBuilder.url QueryBuilder.new "x").headersMap = QueryBuilder.new.headersMap ∧
    (QueryBuilder.url QueryBuilder.new "x").bodyMap = QueryBuilder.new.bodyMap :=
  ⟨(c8_mappings_independent.1 QueryBuilder.new "x").2.2 "country" (by decide),
   (c8_mappings_independent.1 QueryBuilder.new "x").1,
   (c8_mappings_independent.1 QueryBuilder.new "x").2.1⟩

/-- C9: no typed getter ever produces the Err variant of its declared Result
type — on every builder state binding the key the outcome is Ok of the stored
string, and the declared error channel is never used. -/
theorem c9_getters_never_err :
    GetterTotalOk QueryBuilder.get_url "url" ∧
    GetterTotalOk QueryBuilder.get_render_js "render_js" ∧
    GetterTotalOk QueryBuilder.get_proxy_type "proxy_type" ∧
    GetterTotalOk QueryBuilder.get_country "country" ∧
    GetterTotalOk QueryBuilder.get_keep_headers "keep_headers" ∧
    GetterTotalOk QueryBuilder.get_session "session" ∧
    GetterTotalOk QueryBuilder.get_timeout "timeout" ∧
    GetterTotalOk QueryBuilder.get_device "device" ∧
    GetterTotalOk QueryBuilder.get_wait_until "wait_until" ∧
    GetterTotalOk QueryBuilder.get_wait_for "wait_for" ∧
    GetterTotalOk QueryBuilder.get_wait_for_css "wait_for_css" ∧
    GetterTotalOk QueryBuilder.get_screenshot "screenshot" ∧
    GetterTotalOk QueryBuilder.get_extract_rules "extract_rules" ∧
    GetterTotalOk QueryBuilder.get_disable_stealth "disable_stealth" ∧
    GetterTotalOk QueryBuilder.get_autoParser "auto_parser" ∧
    GetterTotalOk QueryBuilder.get_js_instructions "js_instructions" :=
  ⟨getterTotalOk_of QueryBuilder.get_url "url" (fun _ => rfl),
   getterTotalOk_of QueryBuilder.get_render_js "render_js" (fun _ => rfl),
   getterTotalOk_of QueryBuilder.get_proxy_type "proxy_type" (fun _ => rfl),
   getterTotalOk_of QueryBuilder.get_country "country" (fun _ => rfl),
   getterTotalOk_of QueryBuilder.get_keep_headers "keep_headers" (fun _ => rfl),
   getterTotalOk_of QueryBuilder.get_session "session" (fun _ => rfl),
   getterTotalOk_of QueryBuilder.get_timeout "timeout" (fun _ => rfl),
   getterTotalOk_of QueryBuilder.get_device "device" (fun _ => rfl),
   getterTotalOk_of QueryBuilder.get_wait_until "wait_until" (fun _ => rfl),
   getterTotalOk_of QueryBuilder.get_wait_for "wait_for" (fun _ => rfl),
   getterTotalOk_of QueryBuilder.get_wait_for_css "wait_for_css" (fun _ => rfl),
   getterTotalOk_of QueryBuilder.get_screenshot "screenshot" (fun _ => rfl),
   getterTotalOk_of QueryBuilder.get_extract_rules "extract_rules" (fun _ => rfl),
   getterTotalOk_of QueryBuilder.get_disable_stealth "disable_stealth" (fun _ => rfl),
   getterTotalOk_of QueryBuilder.get_autoParser "auto_parser" (fun _ => rfl),
   getterTotalOk_of QueryBuilder.get_js_instructions "js_instructions" (fun _ => rfl)⟩

/-- C9 witness: with url bound to x the getter yields Ok x and in particular
not the Err variant. -/
theorem c9_getters_never_err_witness :
    QueryBuilder.get_url (QueryBuilder.url QueryBuilder.new "x") = GetterResult.ok "x" ∧
    QueryBuilder.get_url (QueryBuilder.url QueryBuilder.new "x") ≠ GetterResult.err "boom" :=
  ⟨(c9_getters_never_err.1 (QueryBuilder.url QueryBuilder.new "x")).2 "x" (by decide),
   (c9_getters_never_err.1 (QueryBuilder.url QueryBuilder.new "x")).1 "boom"⟩

/-- C10: the url value is percent-encoded unconditionally, so encoding is not
idempotent from the caller's view — the already-encoded value a%20b is
re-encoded to a%2520b in the generated URL. -/
theorem c10_url_value_double_encoded :
    encode "a%20b" = "a%2520b" ∧
    encode (encode "a%20b") ≠ encode "a%20b" ∧
    WebScrapingAPI.params_to_api_url { key := "K" } [("url", "a%20b")] =
      "https://scrape.shifter.io/v1?api_key=K&url=a%2520b" :=
  ⟨by decide, by decide, by decide⟩
